import Mathlib

/- Shallow embedding of the cadence-decoding and YouTube-gating core of the
   repository (src/ble_reader.py and src/cadence_monitor.py).

   Modelling conventions:
   * Python machine floats (IEEE-754 binary64) are modelled exactly: a float
     arithmetic result is the exact rational result rounded to a 53-bit
     significand with round-to-nearest, ties-to-even (`roundDouble`).  All
     values arising here are positive and far from the subnormal/overflow
     range, so exponent clamping never fires and is not modelled.
   * `time.time()` timestamps are rationals passed in explicitly.
   * The external gate service (UniFiController.enable_rule / disable_rule)
     and the BLE transport are modelled by boolean success parameters,
     matching their use as boolean-returning calls in cadence_monitor.py.
   * Python's tri-state `self.youtube_blocked` (None/True/False) is
     `Option Bool`; `deque(maxlen=N)` is a list trimmed on push. -/

/-- Fuel-driven binary logarithm: `log2fuel fuel n` is `⌊log₂ n⌋` whenever
`1 ≤ n ≤ fuel`.  Used to extract the binary exponent of a rational. -/
def log2fuel : ℕ → ℕ → ℕ
  | 0, _ => 0
  | fuel + 1, n => if 2 ≤ n then log2fuel fuel (n / 2) + 1 else 0

/-- `⌊log₂ n⌋` for `n ≥ 1`. -/
def natLog2 (n : ℕ) : ℕ := log2fuel n n

/-- Binary exponent of a positive rational: the unique `e` with
`2^e ≤ q < 2^(e+1)`. -/
def qexp (q : ℚ) : ℤ :=
  if (2 : ℚ) ^ ((natLog2 q.num.toNat : ℤ) - (natLog2 q.den : ℤ)) ≤ q
  then (natLog2 q.num.toNat : ℤ) - (natLog2 q.den : ℤ)
  else (natLog2 q.num.toNat : ℤ) - (natLog2 q.den : ℤ) - 1

/-- Round a rational to the nearest integer, ties to even. -/
def roundHalfEven (s : ℚ) : ℤ :=
  if s - ⌊s⌋ < 1 / 2 then ⌊s⌋
  else if 1 / 2 < s - ⌊s⌋ then ⌊s⌋ + 1
  else if ⌊s⌋ % 2 = 0 then ⌊s⌋ else ⌊s⌋ + 1

/-- Round a positive rational to a 53-bit significand (IEEE-754 binary64,
round to nearest, ties to even), ignoring exponent range limits. -/
def roundPos (q : ℚ) : ℚ :=
  (roundHalfEven (q * 2 ^ ((52 : ℤ) - qexp q)) : ℚ) * 2 ^ (qexp q - 52)

/-- Exact model of rounding a real (rational) value to an IEEE-754 binary64
float, for values inside the normal range. -/
def roundDouble (q : ℚ) : ℚ :=
  if 0 < q then roundPos q
  else if q < 0 then -roundPos (-q)
  else 0

/-- Python `int(x)` on a float: truncation toward zero. -/
def truncQ (x : ℚ) : ℤ := if x < 0 then -⌊-x⌋ else ⌊x⌋

/-- Decoder state of `CadenceSensor` (src/ble_reader.py, `__init__`):
`self.cadence`, `self.last_crank_revolutions`, `self.last_crank_event_time`. -/
structure SensorState where
  cadence : ℤ
  lastCrankRevolutions : Option ℕ
  lastCrankEventTime : Option ℕ
  deriving DecidableEq

/-- `int.from_bytes(data[i:i+2], byteorder='little', signed=False)`. -/
def u16le (lo hi : ℕ) : ℕ := lo + 256 * hi

/-- `data[i]` on a byte list (frames reaching an index are long enough in
every use below, so the default value never matters). -/
def byteAt (data : List ℕ) (i : ℕ) : ℕ := data.getD i 0

/-- `(flags & 0x02) != 0`: bit 1 of the flags byte. -/
def crankDataPresent (flags : ℕ) : Bool := flags / 2 % 2 = 1

/-- Counter difference with 16-bit rollover correction
(src/ble_reader.py lines 186-192): `curr - prev`, plus 65536 when negative. -/
def diff16 (prev curr : ℕ) : ℤ :=
  if (curr : ℤ) - (prev : ℤ) < 0 then (curr : ℤ) - (prev : ℤ) + 65536
  else (curr : ℤ) - (prev : ℤ)

/-- `time_minutes = (time_diff / 1024.0) / 60.0` in float arithmetic
(src/ble_reader.py line 199).  `time_diff` is an exact small integer, so its
conversion to float is exact; each division rounds. -/
def timeMinutes (timeDiff : ℤ) : ℚ :=
  roundDouble (roundDouble ((timeDiff : ℚ) / 1024) / 60)

/-- `int(rev_diff / time_minutes)` in float arithmetic
(src/ble_reader.py line 201). -/
def floatRpm (revDiff timeDiff : ℤ) : ℤ :=
  truncQ (roundDouble ((revDiff : ℚ) / timeMinutes timeDiff))

/-- The spec's description of the same quantity in exact arithmetic:
`floor(rev_diff / ((time_diff / 1024.0) / 60.0))`. -/
def rpmSpecFloor (revDiff timeDiff : ℤ) : ℤ :=
  ⌊(revDiff : ℚ) / (((timeDiff : ℚ) / 1024) / 60)⌋

/-- `CadenceSensor._notification_handler` (src/ble_reader.py lines 150-213).
Returns the new sensor state together with the sample delivered to the
monitor's callback (if any). -/
def notificationHandler (s : SensorState) (data : List ℕ) :
    SensorState × Option ℤ :=
  if data.length < 1 then (s, none)
  else if ¬ crankDataPresent (byteAt data 0) then (s, none)
  else if data.length < 5 then (s, none)
  else if s.lastCrankRevolutions.isSome ∧ s.lastCrankEventTime.isSome then
    if 0 < diff16 (s.lastCrankEventTime.getD 0) (u16le (byteAt data 3) (byteAt data 4)) then
      if 0 < timeMinutes
          (diff16 (s.lastCrankEventTime.getD 0) (u16le (byteAt data 3) (byteAt data 4))) then
        ({ cadence := floatRpm
              (diff16 (s.lastCrankRevolutions.getD 0) (u16le (byteAt data 1) (byteAt data 2)))
              (diff16 (s.lastCrankEventTime.getD 0) (u16le (byteAt data 3) (byteAt data 4))),
           lastCrankRevolutions := some (u16le (byteAt data 1) (byteAt data 2)),
           lastCrankEventTime := some (u16le (byteAt data 3) (byteAt data 4)) },
         some (floatRpm
              (diff16 (s.lastCrankRevolutions.getD 0) (u16le (byteAt data 1) (byteAt data 2)))
              (diff16 (s.lastCrankEventTime.getD 0) (u16le (byteAt data 3) (byteAt data 4)))))
      else
        ({ s with lastCrankRevolutions := some (u16le (byteAt data 1) (byteAt data 2)),
                  lastCrankEventTime := some (u16le (byteAt data 3) (byteAt data 4)) },
         none)
    else
      ({ s with lastCrankRevolutions := some (u16le (byteAt data 1) (byteAt data 2)),
                lastCrankEventTime := some (u16le (byteAt data 3) (byteAt data 4)) },
       none)
  else
    ({ s with lastCrankRevolutions := some (u16le (byteAt data 1) (byteAt data 2)),
              lastCrankEventTime := some (u16le (byteAt data 3) (byteAt data 4)) },
     none)

/-- The numeric configuration consumed by `CadenceMonitor`
(src/config.py: CADENCE_THRESHOLD, GRACE_PERIOD_SECONDS,
ROLLING_AVERAGE_WINDOW). -/
structure Config where
  threshold : ℚ
  gracePeriod : ℚ
  window : ℕ
  deriving DecidableEq

/-- Mutable state of `CadenceMonitor` (src/cadence_monitor.py, `__init__`):
`self.cadence_history`, `self.current_cadence`, `self.youtube_blocked`
(None = unknown), `self.last_state_change`. -/
structure MonitorState where
  cadenceHistory : List ℚ
  currentCadence : ℚ
  youtubeBlocked : Option Bool
  lastStateChange : ℚ
  deriving DecidableEq

/-- `deque(maxlen=N).append`: append and evict oldest entries beyond `N`. -/
def pushSample (cfg : Config) (hist : List ℚ) (x : ℚ) : List ℚ :=
  let h := hist ++ [x]
  if cfg.window < h.length then h.drop (h.length - cfg.window) else h

/-- `CadenceMonitor._cadence_update` (src/cadence_monitor.py lines 88-96). -/
def cadenceUpdate (cfg : Config) (s : MonitorState) (x : ℚ) : MonitorState :=
  { s with currentCadence := x, cadenceHistory := pushSample cfg s.cadenceHistory x }

/-- `CadenceMonitor.get_average_cadence` (src/cadence_monitor.py lines 98-107). -/
def getAverageCadence (hist : List ℚ) : ℚ :=
  if hist.isEmpty then 0 else hist.sum / (hist.length : ℚ)

/-- `CadenceMonitor.should_block_youtube` (src/cadence_monitor.py lines
109-129): block while the window is not full, else compare the average
against the threshold. -/
def shouldBlockYoutube (cfg : Config) (hist : List ℚ) : Bool :=
  if hist.length < cfg.window then true
  else decide (getAverageCadence hist < cfg.threshold)

/-- `CadenceMonitor.can_change_state` (src/cadence_monitor.py lines 131-139):
`time.time() - self.last_state_change >= Config.GRACE_PERIOD_SECONDS`. -/
def canChangeState (cfg : Config) (lastStateChange now : ℚ) : Bool :=
  decide (cfg.gracePeriod ≤ now - lastStateChange)

/-- `CadenceMonitor.update_youtube_block` (src/cadence_monitor.py lines
141-172).  `enableOk` / `disableOk` are the boolean results of
`controller.enable_rule()` / `controller.disable_rule()`.  The second
component records whether a state change was applied. -/
def updateYoutubeBlock (cfg : Config) (s : MonitorState) (now : ℚ)
    (enableOk disableOk : Bool) : MonitorState × Bool :=
  if s.youtubeBlocked = some (shouldBlockYoutube cfg s.cadenceHistory) then (s, false)
  else if ¬ canChangeState cfg s.lastStateChange now then (s, false)
  else if (if shouldBlockYoutube cfg s.cadenceHistory then enableOk else disableOk) then
    ({ s with
        youtubeBlocked := some (shouldBlockYoutube cfg s.cadenceHistory)
        lastStateChange := now },
     true)
  else (s, false)

/-- The disconnect branch of `CadenceMonitor.monitor_loop`
(src/cadence_monitor.py lines 184-196): when `not self.sensor.is_connected()`,
force-block (if not already blocked and the gate call succeeds), then clear
the window and zero the current sample.  Python's `if not self.youtube_blocked`
is true for both `None` and `False`. -/
def handleDisconnect (s : MonitorState) (now : ℚ) (enableOk : Bool) : MonitorState :=
  let s1 :=
    if s.youtubeBlocked ≠ some true then
      if enableOk then { s with youtubeBlocked := some true, lastStateChange := now }
      else s
    else s
  { s1 with cadenceHistory := [], currentCadence := 0 }

/-- One iteration of `CadenceMonitor.monitor_loop` (src/cadence_monitor.py
lines 182-220): if the sensor is connected, run the update tick; otherwise run
the disconnect branch, and run the update tick only if the reconnect attempt
succeeds (on failure the iteration ends with the backoff sleep). -/
def monitorStep (cfg : Config) (s : MonitorState)
    (connected reconnectOk enableOk disableOk : Bool) (nowDisc nowUpd : ℚ) :
    MonitorState :=
  if connected then (updateYoutubeBlock cfg s nowUpd enableOk disableOk).1
  else
    let s1 := handleDisconnect s nowDisc enableOk
    if reconnectOk then (updateYoutubeBlock cfg s1 nowUpd enableOk disableOk).1
    else s1

/-- The state constructed by `CadenceMonitor.__init__`
(src/cadence_monitor.py lines 22-29). -/
def initMonitorState : MonitorState :=
  { cadenceHistory := [], currentCadence := 0, youtubeBlocked := none,
    lastStateChange := 0 }

/-- `CadenceMonitor.initialize` (src/cadence_monitor.py lines 31-86):
validates the configuration, verifies controller access, reads the initial
rule status into `youtube_blocked` (failing when it is unknown), connects the
sensor and subscribes.  Returns `none` when any step fails.  No gate-service
write happens here. -/
def initMonitor (validateOk verifyOk : Bool) (ruleStatus : Option Bool)
    (sensorOk notifyOk : Bool) : Option MonitorState :=
  if ¬ validateOk then none
  else if ¬ verifyOk then none
  else if ruleStatus = none then none
  else if ¬ sensorOk then none
  else if ¬ notifyOk then none
  else some { initMonitorState with youtubeBlocked := ruleStatus }

theorem log2fuel_spec : ∀ (fuel n : ℕ), 1 ≤ n → n ≤ fuel →
    2 ^ log2fuel fuel n ≤ n ∧ n < 2 ^ (log2fuel fuel n + 1) := by
  intro fuel
  induction fuel with
  | zero => intro n h1 h2; omega
  | succ f ih =>
    intro n h1 h2
    by_cases h : 2 ≤ n
    · have ihn := ih (n / 2) (by omega) (by omega)
      simp only [log2fuel, if_pos h]
      obtain ⟨hl, hu⟩ := ihn
      constructor
      · have e1 : 2 ^ (log2fuel f (n / 2) + 1) = 2 * 2 ^ log2fuel f (n / 2) := by ring
        rw [e1]; omega
      · have e2 : 2 ^ (log2fuel f (n / 2) + 1 + 1) = 2 * 2 ^ (log2fuel f (n / 2) + 1) := by
          ring
        rw [e2]; omega
    · simp only [log2fuel, if_neg h, pow_zero, zero_add, pow_one]
      omega

theorem natLog2_spec (n : ℕ) (h : 1 ≤ n) :
    2 ^ natLog2 n ≤ n ∧ n < 2 ^ (natLog2 n + 1) :=
  log2fuel_spec n n h le_rfl

theorem qexp_spec (q : ℚ) (hq : 0 < q) :
    (2 : ℚ) ^ qexp q ≤ q ∧ q < 2 ^ (qexp q + 1) := by
  have hnum : 0 < q.num := Rat.num_pos.mpr hq
  have hn1 : 1 ≤ q.num.toNat := by omega
  have hd1 : 1 ≤ q.den := q.den_pos
  obtain ⟨hna, hnb⟩ := natLog2_spec _ hn1
  obtain ⟨hda, hdb⟩ := natLog2_spec _ hd1
  set a := natLog2 q.num.toNat with ha
  set b := natLog2 q.den with hb
  have hq_eq : q = (q.num.toNat : ℚ) / (q.den : ℚ) := by
    have h1 : ((q.num.toNat : ℤ) : ℚ) = (q.num : ℚ) := by
      rw [Int.toNat_of_nonneg hnum.le]
    push_cast at h1
    rw [h1, Rat.num_div_den]
  have hD0 : (0 : ℚ) < (q.den : ℚ) := by exact_mod_cast hd1
  have hNa : (2 : ℚ) ^ (a : ℕ) ≤ (q.num.toNat : ℚ) := by exact_mod_cast hna
  have hNb : ((q.num.toNat : ℚ)) < 2 ^ (a + 1) := by exact_mod_cast hnb
  have hDa : (2 : ℚ) ^ (b : ℕ) ≤ (q.den : ℚ) := by exact_mod_cast hda
  have hDb : ((q.den : ℚ)) < 2 ^ (b + 1) := by exact_mod_cast hdb
  have hzc : ∀ n : ℕ, (2 : ℚ) ^ (n : ℤ) = 2 ^ n := fun n => zpow_natCast 2 n
  have hDa2 : (2 : ℚ) ^ (b : ℤ) ≤ (q.den : ℚ) := by rw [hzc]; exact hDa
  have hDb2 : ((q.den : ℚ)) < 2 ^ ((b : ℤ) + 1) := by
    have : ((b : ℤ) + 1) = ((b + 1 : ℕ) : ℤ) := by push_cast; ring
    rw [this, hzc]
    exact hDb
  have hNa2 : (2 : ℚ) ^ (a : ℤ) ≤ (q.num.toNat : ℚ) := by rw [hzc]; exact hNa
  have hNb2 : ((q.num.toNat : ℚ)) < 2 ^ ((a : ℤ) + 1) := by
    have : ((a : ℤ) + 1) = ((a + 1 : ℕ) : ℤ) := by push_cast; ring
    rw [this, hzc]
    exact hNb
  have upper : q < 2 ^ ((a : ℤ) - b + 1) := by
    rw [hq_eq, div_lt_iff₀ hD0]
    calc (q.num.toNat : ℚ) < 2 ^ ((a : ℤ) + 1) := hNb2
      _ = 2 ^ ((a : ℤ) - b + 1) * 2 ^ (b : ℤ) := by
          rw [← zpow_add₀ (two_ne_zero : (2:ℚ) ≠ 0)]
          congr 1
          ring
      _ ≤ 2 ^ ((a : ℤ) - b + 1) * (q.den : ℚ) := by
          have := zpow_pos (two_pos : (0:ℚ) < 2) ((a : ℤ) - b + 1)
          exact mul_le_mul_of_nonneg_left hDa2 this.le
  have lower : 2 ^ ((a : ℤ) - b - 1) < q := by
    rw [hq_eq, lt_div_iff₀ hD0]
    calc 2 ^ ((a : ℤ) - b - 1) * (q.den : ℚ) <
        2 ^ ((a : ℤ) - b - 1) * 2 ^ ((b : ℤ) + 1) := by
          have := zpow_pos (two_pos : (0:ℚ) < 2) ((a : ℤ) - b - 1)
          exact mul_lt_mul_of_pos_left hDb2 this
      _ = 2 ^ (a : ℤ) := by
          rw [← zpow_add₀ (two_ne_zero : (2:ℚ) ≠ 0)]
          congr 1
          ring
      _ ≤ (q.num.toNat : ℚ) := hNa2
  unfold qexp
  rw [← ha, ← hb]
  split_ifs with h
  · exact ⟨h, upper⟩
  · constructor
    · exact lower.le
    · have : (a : ℤ) - b - 1 + 1 = (a : ℤ) - b := by ring
      rw [this]
      exact lt_of_not_le h

theorem qexp_unique (q : ℚ) (e : ℤ) (hq : 0 < q)
    (h1 : (2 : ℚ) ^ e ≤ q) (h2 : q < 2 ^ (e + 1)) : qexp q = e := by
  obtain ⟨g1, g2⟩ := qexp_spec q hq
  have h12 : (1 : ℚ) < 2 := one_lt_two
  by_contra hne
  rcases lt_or_gt_of_ne hne with hlt | hgt
  · have : qexp q + 1 ≤ e := by omega
    have hm : (2 : ℚ) ^ (qexp q + 1) ≤ 2 ^ e :=
      (zpow_le_zpow_iff_right₀ h12).mpr this
    linarith
  · have : e + 1 ≤ qexp q := by omega
    have hm : (2 : ℚ) ^ (e + 1) ≤ 2 ^ qexp q :=
      (zpow_le_zpow_iff_right₀ h12).mpr this
    linarith

theorem roundHalfEven_bounds (s : ℚ) :
    s - 1 / 2 ≤ (roundHalfEven s : ℚ) ∧ (roundHalfEven s : ℚ) ≤ s + 1 / 2 := by
  have h1 := Int.floor_le s
  have h2 := Int.lt_floor_add_one s
  unfold roundHalfEven
  split_ifs with ha hb hc
  all_goals push_cast
  all_goals constructor
  all_goals linarith

theorem roundPos_bounds (q : ℚ) (hq : 0 < q) :
    q - q / 9007199254740992 ≤ roundPos q ∧
    roundPos q ≤ q + q / 9007199254740992 := by
  obtain ⟨hl, hu⟩ := qexp_spec q hq
  set e := qexp q with he
  obtain ⟨r1, r2⟩ := roundHalfEven_bounds (q * 2 ^ ((52 : ℤ) - e))
  unfold roundPos
  rw [← he]
  have hp : (0 : ℚ) < 2 ^ (e - 52) := zpow_pos two_pos _
  have hinv : (2 : ℚ) ^ ((52 : ℤ) - e) * 2 ^ (e - 52) = 1 := by
    rw [← zpow_add₀ (two_ne_zero : (2:ℚ) ≠ 0)]
    norm_num
  have expand2 : (1 / 2 : ℚ) * 2 ^ (e - 52) = 2 ^ (e - 53) := by
    have h12 : (1 / 2 : ℚ) = 2 ^ (-1 : ℤ) := by norm_num
    rw [h12, ← zpow_add₀ (two_ne_zero : (2:ℚ) ≠ 0)]
    congr 1
    ring
  have keybound : (2 : ℚ) ^ (e - 53) ≤ q / 9007199254740992 := by
    have hsplit : (2 : ℚ) ^ (e - 53) = 2 ^ e * 2 ^ (-53 : ℤ) := by
      rw [← zpow_add₀ (two_ne_zero : (2:ℚ) ≠ 0)]
      norm_num [sub_eq_add_neg]
    have hv : (2 : ℚ) ^ (-53 : ℤ) = 1 / 9007199254740992 := by norm_num
    rw [hsplit, hv]
    have := mul_le_mul_of_nonneg_right hl
      (by norm_num : (0:ℚ) ≤ 1 / 9007199254740992)
    linarith
  have m1 := mul_le_mul_of_nonneg_right r1 hp.le
  have m2 := mul_le_mul_of_nonneg_right r2 hp.le
  have lhs_eq : (q * 2 ^ ((52 : ℤ) - e) - 1 / 2) * 2 ^ (e - 52) = q - 2 ^ (e - 53) := by
    rw [sub_mul, mul_assoc, hinv, mul_one, expand2]
  have rhs_eq : (q * 2 ^ ((52 : ℤ) - e) + 1 / 2) * 2 ^ (e - 52) = q + 2 ^ (e - 53) := by
    rw [add_mul, mul_assoc, hinv, mul_one, expand2]
  rw [lhs_eq] at m1
  rw [rhs_eq] at m2
  have hz53 : (0 : ℚ) < 2 ^ (e - 53) := zpow_pos two_pos _
  constructor <;> linarith

theorem roundDouble_zero : roundDouble 0 = 0 := by
  unfold roundDouble
  norm_num

theorem roundDouble_bounds (q : ℚ) (hq : 0 ≤ q) :
    q - q / 9007199254740992 ≤ roundDouble q ∧
    roundDouble q ≤ q + q / 9007199254740992 := by
  rcases eq_or_lt_of_le hq with h | h
  · rw [← h, roundDouble_zero]
    norm_num
  · unfold roundDouble
    rw [if_pos h]
    exact roundPos_bounds q h

theorem roundDouble_pos (q : ℚ) (hq : 0 < q) : 0 < roundDouble q := by
  have h := (roundDouble_bounds q hq.le).1
  linarith

theorem roundDouble_nonneg (q : ℚ) (hq : 0 ≤ q) : 0 ≤ roundDouble q := by
  have h := (roundDouble_bounds q hq).1
  linarith

theorem timeMinutes_pos (td : ℤ) (h : 0 < td) : 0 < timeMinutes td := by
  unfold timeMinutes
  have h0 : (0 : ℚ) < (td : ℚ) := by exact_mod_cast h
  have h1 : (0 : ℚ) < (td : ℚ) / 1024 := div_pos h0 (by norm_num)
  have h2 := roundDouble_pos _ h1
  have h3 : (0 : ℚ) < roundDouble ((td : ℚ) / 1024) / 60 := div_pos h2 (by norm_num)
  exact roundDouble_pos _ h3

theorem timeMinutes_bounds (td : ℤ) (htd1 : 1 ≤ td) (htd2 : td ≤ 65535) :
    (td : ℚ) / 61440 - (td : ℚ) / 100000000000000000000 ≤ timeMinutes td ∧
    timeMinutes td ≤ (td : ℚ) / 61440 + (td : ℚ) / 100000000000000000000 := by
  have htdQ : (1 : ℚ) ≤ (td : ℚ) := by exact_mod_cast htd1
  have htdQ2 : (td : ℚ) ≤ 65535 := by exact_mod_cast htd2
  have hT0 : (0 : ℚ) ≤ (td : ℚ) / 1024 := div_nonneg (by linarith) (by norm_num)
  obtain ⟨a1, a2⟩ := roundDouble_bounds ((td : ℚ) / 1024) hT0
  have hq1nn := roundDouble_nonneg _ hT0
  have hq2nn : (0 : ℚ) ≤ roundDouble ((td : ℚ) / 1024) / 60 :=
    div_nonneg hq1nn (by norm_num)
  obtain ⟨b1, b2⟩ := roundDouble_bounds (roundDouble ((td : ℚ) / 1024) / 60) hq2nn
  unfold timeMinutes
  constructor <;> linarith

set_option maxHeartbeats 1600000 in
theorem floatRpm_bounds (rd td : ℤ) (hrd1 : 1 ≤ rd) (hrd2 : rd ≤ 65535)
    (htd1 : 1 ≤ td) (htd2 : td ≤ 65535) :
    (61440 * rd) / td - 1 ≤ floatRpm rd td ∧ floatRpm rd td ≤ (61440 * rd) / td ∧
    0 ≤ floatRpm rd td := by
  have htd0 : (0 : ℤ) < td := htd1
  have hFr : td * ((61440 * rd) / td) + (61440 * rd) % td = 61440 * rd :=
    Int.ediv_add_emod _ _
  have hr0' : 0 ≤ (61440 * rd) % td := Int.emod_nonneg _ (by omega)
  have hrlt : (61440 * rd) % td < td := Int.emod_lt_of_pos _ htd0
  have hF0 : 0 ≤ (61440 * rd) / td := Int.ediv_nonneg (by omega) (by omega)
  have hgap : (61440 * rd) % td ≤ td - 1 := by omega
  -- rational abbreviations
  have htdQ : (1 : ℚ) ≤ (td : ℚ) := by exact_mod_cast htd1
  have htdQ2 : (td : ℚ) ≤ 65535 := by exact_mod_cast htd2
  have hrdQ1 : (1 : ℚ) ≤ (rd : ℚ) := by exact_mod_cast hrd1
  have hrdQ2 : (rd : ℚ) ≤ 65535 := by exact_mod_cast hrd2
  have htdQ0 : (0 : ℚ) < (td : ℚ) := by linarith
  have htm : 0 < timeMinutes td := timeMinutes_pos td htd0
  obtain ⟨tmLo, tmHi⟩ := timeMinutes_bounds td htd1 htd2
  -- the float quotient and its bounds
  have hr0nn : (0 : ℚ) ≤ (rd : ℚ) / timeMinutes td :=
    div_nonneg (by linarith) htm.le
  obtain ⟨c1, c2⟩ := roundDouble_bounds ((rd : ℚ) / timeMinutes td) hr0nn
  have hres0 : 0 ≤ roundDouble ((rd : ℚ) / timeMinutes td) :=
    roundDouble_nonneg _ hr0nn
  have hA3 : (rd : ℚ) / timeMinutes td * timeMinutes td = (rd : ℚ) :=
    div_mul_cancel₀ _ htm.ne'
  -- res * tm bounds
  have m1 := mul_le_mul_of_nonneg_right c1 htm.le
  have m2 := mul_le_mul_of_nonneg_right c2 htm.le
  have e1 : ((rd : ℚ) / timeMinutes td - (rd : ℚ) / timeMinutes td / 9007199254740992) *
      timeMinutes td = (rd : ℚ) - (rd : ℚ) / 9007199254740992 := by
    have hexp : ((rd : ℚ) / timeMinutes td - (rd : ℚ) / timeMinutes td / 9007199254740992) *
        timeMinutes td = (rd : ℚ) / timeMinutes td * timeMinutes td -
          ((rd : ℚ) / timeMinutes td * timeMinutes td) / 9007199254740992 := by ring
    rw [hexp, hA3]
  have e2 : ((rd : ℚ) / timeMinutes td + (rd : ℚ) / timeMinutes td / 9007199254740992) *
      timeMinutes td = (rd : ℚ) + (rd : ℚ) / 9007199254740992 := by
    have hexp : ((rd : ℚ) / timeMinutes td + (rd : ℚ) / timeMinutes td / 9007199254740992) *
        timeMinutes td = (rd : ℚ) / timeMinutes td * timeMinutes td +
          ((rd : ℚ) / timeMinutes td * timeMinutes td) / 9007199254740992 := by ring
    rw [hexp, hA3]
  rw [e1] at m1
  rw [e2] at m2
  -- res * tm vs res * td * k
  have m3 := mul_le_mul_of_nonneg_left tmLo hres0
  have m4 := mul_le_mul_of_nonneg_left tmHi hres0
  -- cast the division decomposition
  have hFrQ : (td : ℚ) * (((61440 * rd) / td : ℤ) : ℚ) + (((61440 * rd) % td : ℤ) : ℚ) =
      61440 * (rd : ℚ) := by exact_mod_cast hFr
  have hρQ0 : (0 : ℚ) ≤ (((61440 * rd) % td : ℤ) : ℚ) := by exact_mod_cast hr0'
  have hρQlt : (((61440 * rd) % td : ℤ) : ℚ) < (td : ℚ) := by exact_mod_cast hrlt
  have hgapQ : (((61440 * rd) % td : ℤ) : ℚ) ≤ (td : ℚ) - 1 := by
    exact_mod_cast hgap
  have hFQ0 : (0 : ℚ) ≤ (((61440 * rd) / td : ℤ) : ℚ) := by exact_mod_cast hF0
  -- upper bound: res < F + 1
  have hku : (0 : ℚ) < (td : ℚ) * (1 / 61440 - 1 / 100000000000000000000) := by
    have hc : (0 : ℚ) < (1 / 61440 - 1 / 100000000000000000000 : ℚ) := by norm_num
    exact mul_pos htdQ0 hc
  have hprodU : roundDouble ((rd : ℚ) / timeMinutes td) *
      ((td : ℚ) * (1 / 61440 - 1 / 100000000000000000000)) <
      ((((61440 * rd) / td : ℤ) : ℚ) + 1) *
      ((td : ℚ) * (1 / 61440 - 1 / 100000000000000000000)) := by
    linarith [m1, m2, m3, m4, hFrQ, hρQ0, hgapQ, hFQ0, hrdQ1, hrdQ2, htdQ, htdQ2]
  have hresU : roundDouble ((rd : ℚ) / timeMinutes td) <
      (((61440 * rd) / td : ℤ) : ℚ) + 1 :=
    lt_of_mul_lt_mul_right hprodU hku.le
  -- lower bound: F - 1 < res
  have hkl : (0 : ℚ) < (td : ℚ) * (1 / 61440 + 1 / 100000000000000000000) := by
    have hc : (0 : ℚ) < (1 / 61440 + 1 / 100000000000000000000 : ℚ) := by norm_num
    exact mul_pos htdQ0 hc
  have hprodL : ((((61440 * rd) / td : ℤ) : ℚ) - 1) *
      ((td : ℚ) * (1 / 61440 + 1 / 100000000000000000000)) <
      roundDouble ((rd : ℚ) / timeMinutes td) *
      ((td : ℚ) * (1 / 61440 + 1 / 100000000000000000000)) := by
    linarith [m1, m2, m3, m4, hFrQ, hρQ0, hgapQ, hFQ0, hrdQ1, hrdQ2, htdQ, htdQ2]
  have hresL : (((61440 * rd) / td : ℤ) : ℚ) - 1 <
      roundDouble ((rd : ℚ) / timeMinutes td) :=
    lt_of_mul_lt_mul_right hprodL hkl.le
  -- convert to the truncated integer
  have htrunc : floatRpm rd td = ⌊roundDouble ((rd : ℚ) / timeMinutes td)⌋ := by
    unfold floatRpm truncQ
    rw [if_neg (not_lt.mpr hres0)]
  refine ⟨?_, ?_, ?_⟩
  · rw [htrunc]
    refine Int.le_floor.mpr ?_
    push_cast
    linarith
  · rw [htrunc]
    have hlt : ⌊roundDouble ((rd : ℚ) / timeMinutes td)⌋ < (61440 * rd) / td + 1 := by
      refine Int.floor_lt.mpr ?_
      push_cast
      linarith
    omega
  · rw [htrunc]
    refine Int.le_floor.mpr ?_
    push_cast
    linarith

theorem diff16_nonneg (prev curr : ℕ) (hp : prev ≤ 65535) : 0 ≤ diff16 prev curr := by
  unfold diff16
  split_ifs with h <;> omega

theorem diff16_le (prev curr : ℕ) (hc : curr ≤ 65535) : diff16 prev curr ≤ 65535 := by
  unfold diff16
  split_ifs with h <;> omega

theorem u16le_le (lo hi : ℕ) (h1 : lo ≤ 255) (h2 : hi ≤ 255) : u16le lo hi ≤ 65535 := by
  unfold u16le
  omega

theorem byteAt_le (data : List ℕ) (i : ℕ) (hb : ∀ x ∈ data, x ≤ 255) :
    byteAt data i ≤ 255 := by
  unfold byteAt
  by_cases h : i < data.length
  · rw [List.getD_eq_getElem _ _ h]
    exact hb _ (List.getElem_mem h)
  · rw [List.getD_eq_default _ _ (le_of_not_lt h)]
    omega

theorem notificationHandler_second (s : SensorState) (data : List ℕ)
    (prevRev prevTime : ℕ)
    (hpr : s.lastCrankRevolutions = some prevRev)
    (hpt : s.lastCrankEventTime = some prevTime)
    (hlen : 5 ≤ data.length)
    (hbit : crankDataPresent (byteAt data 0) = true)
    (htd : 0 < diff16 prevTime (u16le (byteAt data 3) (byteAt data 4))) :
    (notificationHandler s data).2 =
      some (floatRpm (diff16 prevRev (u16le (byteAt data 1) (byteAt data 2)))
        (diff16 prevTime (u16le (byteAt data 3) (byteAt data 4)))) := by
  have h1 : ¬ data.length < 1 := by omega
  have h5 : ¬ data.length < 5 := by omega
  unfold notificationHandler
  rw [hpr, hpt]
  simp only [Option.getD_some, Option.isSome_some, and_self]
  rw [if_neg h1, if_neg (by simp [hbit]), if_neg h5, if_pos trivial, if_pos htd,
    if_pos (timeMinutes_pos _ htd)]

theorem notificationHandler_malformed (s : SensorState) (data : List ℕ)
    (hbit : crankDataPresent (byteAt data 0) = true)
    (hlen : data.length < 5) :
    notificationHandler s data = (s, none) := by
  have h1 : ¬ data.length < 1 := by
    intro hl
    have hnil : data = [] := List.eq_nil_of_length_eq_zero (by omega)
    rw [hnil] at hbit
    simp [byteAt, crankDataPresent] at hbit
  unfold notificationHandler
  rw [if_neg h1, if_neg (by simp [hbit]), if_pos hlen]

theorem rpmSpecFloor_eq_intDiv (rd td : ℤ) (htd : 0 < td) :
    rpmSpecFloor rd td = (61440 * rd) / td := by
  unfold rpmSpecFloor
  have htdQ0 : (0 : ℚ) < (td : ℚ) := by exact_mod_cast htd
  have h1 : (rd : ℚ) / (((td : ℚ) / 1024) / 60) = ((61440 * rd : ℤ) : ℚ) / ((td : ℤ) : ℚ) := by
    push_cast
    field_simp
    ring
  rw [h1]
  have h3 : ((td.toNat : ℕ) : ℤ) = td := Int.toNat_of_nonneg htd.le
  have h2 : ((td.toNat : ℕ) : ℚ) = ((td : ℤ) : ℚ) := by exact_mod_cast congrArg (fun z : ℤ => (z : ℚ)) h3
  rw [← h2, Rat.floor_intCast_div_natCast, h3]

theorem roundDouble_eval (q r : ℚ) (e f : ℤ) (hq : 0 < q)
    (h1 : (2 : ℚ) ^ e ≤ q) (h2 : q < 2 ^ (e + 1))
    (hf : roundHalfEven (q * 2 ^ ((52 : ℤ) - e)) = f)
    (hr : (f : ℚ) * 2 ^ (e - 52) = r) : roundDouble q = r := by
  unfold roundDouble
  rw [if_pos hq]
  unfold roundPos
  rw [qexp_unique q e hq h1 h2, hf, hr]

set_option maxHeartbeats 1000000 in
theorem roundDouble_23_1024 : roundDouble ((23 : ℚ) / 1024) = 23 / 1024 := by
  apply roundDouble_eval _ _ (-6) 6473924464345088
  · norm_num
  · norm_num
  · norm_num
  · have hX : (23 : ℚ) / 1024 * 2 ^ ((52 : ℤ) - (-6)) = 6473924464345088 := by norm_num
    rw [hX]
    unfold roundHalfEven
    norm_num
  · norm_num

set_option maxHeartbeats 1000000 in
theorem roundDouble_23_61440 :
    roundDouble ((23 : ℚ) / 61440) = 6905519428634761 / 18446744073709551616 := by
  apply roundDouble_eval _ _ (-12) 6905519428634761
  · norm_num
  · norm_num
  · norm_num
  · have hX : (23 : ℚ) / 61440 * 2 ^ ((52 : ℤ) - (-12)) = 103582791429521408 / 15 := by
      norm_num
    rw [hX]
    unfold roundHalfEven
    norm_num
  · norm_num

theorem timeMinutes_23 :
    timeMinutes 23 = 6905519428634761 / 18446744073709551616 := by
  unfold timeMinutes
  have hc : (((23 : ℤ)) : ℚ) = 23 := by norm_num
  rw [hc, roundDouble_23_1024]
  have h2 : ((23 : ℚ) / 1024) / 60 = 23 / 61440 := by norm_num
  rw [h2, roundDouble_23_61440]

set_option maxHeartbeats 1000000 in
theorem roundDouble_stage3 :
    roundDouble ((23 : ℚ) / (6905519428634761 / 18446744073709551616)) =
      8444249301319679 / 137438953472 := by
  apply roundDouble_eval _ _ 15 8444249301319679
  · norm_num
  · norm_num
  · norm_num
  · have hX : (23 : ℚ) / (6905519428634761 / 18446744073709551616) * 2 ^ ((52 : ℤ) - 15) =
        58311927610498552468848347447296 / 6905519428634761 := by norm_num
    rw [hX]
    unfold roundHalfEven
    norm_num
  · norm_num

theorem floatRpm_23_23 : floatRpm 23 23 = 61439 := by
  unfold floatRpm
  have hc : (((23 : ℤ)) : ℚ) = 23 := by norm_num
  rw [hc, timeMinutes_23, roundDouble_stage3]
  unfold truncQ
  rw [if_neg (by norm_num : ¬ (8444249301319679 / 137438953472 : ℚ) < 0)]
  norm_num

theorem floatRpm_nonneg (rd td : ℤ) (hrd : 0 ≤ rd) (htd : 0 < td) :
    0 ≤ floatRpm rd td := by
  have htm := timeMinutes_pos td htd
  have hrdQ : (0 : ℚ) ≤ (rd : ℚ) := by exact_mod_cast hrd
  have h0 : (0 : ℚ) ≤ (rd : ℚ) / timeMinutes td := div_nonneg hrdQ htm.le
  have hres := roundDouble_nonneg _ h0
  unfold floatRpm truncQ
  rw [if_neg (not_lt.mpr hres)]
  exact Int.le_floor.mpr (by exact_mod_cast hres)

theorem floatRpm_zero (td : ℤ) : floatRpm 0 td = 0 := by
  unfold floatRpm
  rw [Int.cast_zero, zero_div, roundDouble_zero]
  unfold truncQ
  norm_num

theorem updateYoutubeBlock_changed (cfg : Config) (s : MonitorState) (now : ℚ)
    (enableOk disableOk : Bool)
    (h : (updateYoutubeBlock cfg s now enableOk disableOk).2 = true) :
    s.youtubeBlocked ≠ some (shouldBlockYoutube cfg s.cadenceHistory) ∧
    canChangeState cfg s.lastStateChange now = true ∧
    (updateYoutubeBlock cfg s now enableOk disableOk).1 =
      { s with
        youtubeBlocked := some (shouldBlockYoutube cfg s.cadenceHistory)
        lastStateChange := now } := by
  unfold updateYoutubeBlock at h ⊢
  by_cases h1 : s.youtubeBlocked = some (shouldBlockYoutube cfg s.cadenceHistory)
  · rw [if_pos h1] at h
    simp at h
  · rw [if_neg h1] at h ⊢
    by_cases h2 : canChangeState cfg s.lastStateChange now = true
    · rw [if_neg (fun hx => hx h2)] at h ⊢
      by_cases h3 :
          (if shouldBlockYoutube cfg s.cadenceHistory then enableOk else disableOk) = true
      · rw [if_pos h3] at h ⊢
        exact ⟨h1, h2, rfl⟩
      · rw [if_neg h3] at h
        simp at h
    · rw [if_pos h2] at h
      simp at h

theorem updateYoutubeBlock_noChange_of_graceFail (cfg : Config) (s : MonitorState)
    (now : ℚ) (enableOk disableOk : Bool)
    (h : canChangeState cfg s.lastStateChange now = false) :
    (updateYoutubeBlock cfg s now enableOk disableOk).2 = false := by
  unfold updateYoutubeBlock
  by_cases h1 : s.youtubeBlocked = some (shouldBlockYoutube cfg s.cadenceHistory)
  · rw [if_pos h1]
  · rw [if_neg h1]
    have h2 : ¬ canChangeState cfg s.lastStateChange now = true := by simp [h]
    rw [if_pos h2]

/-- C1: when the monitor loop detects that the sensor link is down while the
gate is not blocked (`youtube_blocked` is `None` or `False`) and the gate
call succeeds, the state is forced to `blocked = true` with no grace-period
condition, the rolling window is cleared and the current rate sample is
zeroed — for every monitor state (hence for every reachable one). -/
theorem c1_disconnect_force_block (s : MonitorState) (now : ℚ) (enableOk : Bool)
    (hnb : s.youtubeBlocked ≠ some true) (hok : enableOk = true) :
    (handleDisconnect s now enableOk).youtubeBlocked = some true ∧
    (handleDisconnect s now enableOk).cadenceHistory = [] ∧
    (handleDisconnect s now enableOk).currentCadence = 0 := by
  subst hok
  unfold handleDisconnect
  rw [if_pos hnb, if_pos rfl]
  exact ⟨rfl, rfl, rfl⟩

theorem c1_disconnect_force_block_witness :
    ((⟨[70, 70, 70, 70, 70], 70, some false, 100⟩ : MonitorState).youtubeBlocked ≠
      some true) ∧
    ((handleDisconnect ⟨[70, 70, 70, 70, 70], 70, some false, 100⟩ 101 true).youtubeBlocked =
        some true ∧
      (handleDisconnect ⟨[70, 70, 70, 70, 70], 70, some false, 100⟩ 101 true).cadenceHistory =
        [] ∧
      (handleDisconnect ⟨[70, 70, 70, 70, 70], 70, some false, 100⟩ 101 true).currentCadence =
        0) :=
  ⟨by decide, c1_disconnect_force_block _ 101 true (by decide) rfl⟩

/-- C2: a state change is applied by the commit step only if the desired
blocked value differs from the current one and the grace period has elapsed;
and after a change applied at time `now`, any later tick at `t < now +
grace_period` (with arbitrary new window contents) applies no change. -/
theorem c2_commit_grace (cfg : Config) (s : MonitorState) (now : ℚ)
    (enableOk disableOk : Bool)
    (hchange : (updateYoutubeBlock cfg s now enableOk disableOk).2 = true)
    (t : ℚ) (hist2 : List ℚ) (cur2 : ℚ) (e2 d2 : Bool)
    (ht : t < now + cfg.gracePeriod) :
    (some (shouldBlockYoutube cfg s.cadenceHistory) ≠ s.youtubeBlocked ∧
      cfg.gracePeriod ≤ now - s.lastStateChange) ∧
    (updateYoutubeBlock cfg
        { (updateYoutubeBlock cfg s now enableOk disableOk).1 with
          cadenceHistory := hist2
          currentCadence := cur2 } t e2 d2).2 = false := by
  obtain ⟨hne, hcan, hstate⟩ :=
    updateYoutubeBlock_changed cfg s now enableOk disableOk hchange
  have hgrace : cfg.gracePeriod ≤ now - s.lastStateChange := by
    unfold canChangeState at hcan
    exact of_decide_eq_true hcan
  refine ⟨⟨fun hh => hne hh.symm, hgrace⟩, ?_⟩
  apply updateYoutubeBlock_noChange_of_graceFail
  have hl : ({ (updateYoutubeBlock cfg s now enableOk disableOk).1 with
      cadenceHistory := hist2
      currentCadence := cur2 } : MonitorState).lastStateChange = now := by
    rw [hstate]
  rw [hl]
  unfold canChangeState
  rw [decide_eq_false_iff_not]
  intro hge
  linarith

theorem c2_commit_grace_witness :
    (updateYoutubeBlock ⟨60, 3, 5⟩ ⟨[], 0, some false, 0⟩ 10 true true).2 = true ∧
    (12 : ℚ) < 10 + (⟨60, 3, 5⟩ : Config).gracePeriod ∧
    ((some (shouldBlockYoutube ⟨60, 3, 5⟩
          (⟨[], 0, some false, 0⟩ : MonitorState).cadenceHistory) ≠
        (⟨[], 0, some false, 0⟩ : MonitorState).youtubeBlocked ∧
      (⟨60, 3, 5⟩ : Config).gracePeriod ≤
        10 - (⟨[], 0, some false, 0⟩ : MonitorState).lastStateChange) ∧
    (updateYoutubeBlock ⟨60, 3, 5⟩
        { (updateYoutubeBlock ⟨60, 3, 5⟩ ⟨[], 0, some false, 0⟩ 10 true true).1 with
          cadenceHistory := [70]
          currentCadence := 70 } 12 true true).2 = false) := by
  have h1 : (updateYoutubeBlock ⟨60, 3, 5⟩ ⟨[], 0, some false, 0⟩ 10 true true).2 = true := by
    norm_num [updateYoutubeBlock, shouldBlockYoutube, canChangeState]
  have h2 : (12 : ℚ) < 10 + (⟨60, 3, 5⟩ : Config).gracePeriod := by norm_num
  exact ⟨h1, h2, c2_commit_grace _ _ 10 true true h1 12 [70] 70 true true h2⟩

/-- C3: whenever the window holds strictly fewer samples than the configured
capacity, the decision step returns `desired_blocked = true`, whatever the
average is. -/
theorem c3_warming_fail_safe (cfg : Config) (hist : List ℚ)
    (h : hist.length < cfg.window) : shouldBlockYoutube cfg hist = true := by
  unfold shouldBlockYoutube
  rw [if_pos h]

theorem c3_warming_fail_safe_witness :
    ([(200 : ℚ), 200].length < (⟨60, 3, 5⟩ : Config).window) ∧
    shouldBlockYoutube ⟨60, 3, 5⟩ [(200 : ℚ), 200] = true :=
  ⟨by decide, c3_warming_fail_safe _ _ (by decide)⟩

/-- C4: during a state change attempt (desired differs from current and the
grace period has elapsed), a failing gate call leaves the decision state
`(youtube_blocked, last_state_change)` completely unmodified and reports no
change, while a successful call is the only way the state is updated. -/
theorem c4_gate_failure_keeps_state (cfg : Config) (s : MonitorState) (now : ℚ)
    (enableOk disableOk : Bool)
    (hne : s.youtubeBlocked ≠ some (shouldBlockYoutube cfg s.cadenceHistory))
    (hcan : canChangeState cfg s.lastStateChange now = true) :
    ((if shouldBlockYoutube cfg s.cadenceHistory then enableOk else disableOk) = false →
      updateYoutubeBlock cfg s now enableOk disableOk = (s, false)) ∧
    ((if shouldBlockYoutube cfg s.cadenceHistory then enableOk else disableOk) = true →
      (updateYoutubeBlock cfg s now enableOk disableOk).1.youtubeBlocked =
        some (shouldBlockYoutube cfg s.cadenceHistory) ∧
      (updateYoutubeBlock cfg s now enableOk disableOk).1.lastStateChange = now ∧
      (updateYoutubeBlock cfg s now enableOk disableOk).2 = true) := by
  unfold updateYoutubeBlock
  rw [if_neg hne]
  have hcc : ¬ ¬ canChangeState cfg s.lastStateChange now = true := fun hx => hx hcan
  rw [if_neg hcc]
  constructor
  · intro hf
    rw [if_neg (by rw [hf]; exact Bool.false_ne_true)]
  · intro htt
    rw [if_pos htt]
    exact ⟨rfl, rfl, rfl⟩

theorem c4_gate_failure_keeps_state_witness :
    ((⟨[], 0, some false, 0⟩ : MonitorState).youtubeBlocked ≠
      some (shouldBlockYoutube ⟨60, 3, 5⟩
        (⟨[], 0, some false, 0⟩ : MonitorState).cadenceHistory)) ∧
    canChangeState ⟨60, 3, 5⟩ (⟨[], 0, some false, 0⟩ : MonitorState).lastStateChange 10 =
      true ∧
    (((if shouldBlockYoutube ⟨60, 3, 5⟩
          (⟨[], 0, some false, 0⟩ : MonitorState).cadenceHistory then false else false) =
        false →
      updateYoutubeBlock ⟨60, 3, 5⟩ ⟨[], 0, some false, 0⟩ 10 false false =
        (⟨[], 0, some false, 0⟩, false)) ∧
    ((if shouldBlockYoutube ⟨60, 3, 5⟩
          (⟨[], 0, some false, 0⟩ : MonitorState).cadenceHistory then false else false) =
        true →
      (updateYoutubeBlock ⟨60, 3, 5⟩ ⟨[], 0, some false, 0⟩ 10 false false).1.youtubeBlocked =
        some (shouldBlockYoutube ⟨60, 3, 5⟩
          (⟨[], 0, some false, 0⟩ : MonitorState).cadenceHistory) ∧
      (updateYoutubeBlock ⟨60, 3, 5⟩ ⟨[], 0, some false, 0⟩ 10 false false).1.lastStateChange =
        10 ∧
      (updateYoutubeBlock ⟨60, 3, 5⟩ ⟨[], 0, some false, 0⟩ 10 false false).2 = true)) := by
  have hne : (⟨[], 0, some false, 0⟩ : MonitorState).youtubeBlocked ≠
      some (shouldBlockYoutube ⟨60, 3, 5⟩
        (⟨[], 0, some false, 0⟩ : MonitorState).cadenceHistory) := by
    simp [shouldBlockYoutube]
  have hcan : canChangeState ⟨60, 3, 5⟩
      (⟨[], 0, some false, 0⟩ : MonitorState).lastStateChange 10 = true := by
    norm_num [canChangeState]
  exact ⟨hne, hcan, c4_gate_failure_keeps_state _ _ 10 false false hne hcan⟩

/-- C5 counterexample: from counter state (0, 0), the frame
[2, 23, 0, 23, 0] gives rev_diff = 23 and time_diff = 23; the decoder emits
rpm = 61439, while floor(rev_diff / ((time_diff/1024)/60)) = 61440: the float
divisor (23/1024)/60 is rounded up, so the quotient lands just below 61440
and truncation loses 1. -/
theorem c5_rpm_counterexample :
    (notificationHandler ⟨0, some 0, some 0⟩ [2, 23, 0, 23, 0]).2 = some 61439 ∧
    rpmSpecFloor 23 23 = 61440 := by
  constructor
  · rw [notificationHandler_second ⟨0, some 0, some 0⟩ [2, 23, 0, 23, 0] 0 0 rfl rfl
      (by decide) (by decide) (by decide)]
    have e1 : diff16 0 (u16le (byteAt [2, 23, 0, 23, 0] 1) (byteAt [2, 23, 0, 23, 0] 2)) =
        23 := by decide
    have e2 : diff16 0 (u16le (byteAt [2, 23, 0, 23, 0] 3) (byteAt [2, 23, 0, 23, 0] 4)) =
        23 := by decide
    rw [e1, e2, floatRpm_23_23]
  · rw [rpmSpecFloor_eq_intDiv 23 23 (by norm_num)]
    decide

/-- C5 (amended): for consecutive valid crank frames with rev_diff > 0 and
time_diff > 0 the decoder emits the double-precision evaluation of
rev_diff / ((time_diff/1024.0)/60.0) truncated toward zero; this non-negative
value equals floor(rev_diff / ((time_diff/1024)/60)) or that floor minus one
(the latter only through double rounding, as in the counterexample). -/
theorem c5_rpm_double_rounding (s : SensorState) (data : List ℕ)
    (prevRev prevTime : ℕ)
    (hpr : s.lastCrankRevolutions = some prevRev)
    (hpt : s.lastCrankEventTime = some prevTime)
    (hlen : 5 ≤ data.length)
    (hbit : crankDataPresent (byteAt data 0) = true)
    (hbytes : ∀ x ∈ data, x ≤ 255)
    (hrd : 0 < diff16 prevRev (u16le (byteAt data 1) (byteAt data 2)))
    (htd : 0 < diff16 prevTime (u16le (byteAt data 3) (byteAt data 4))) :
    (notificationHandler s data).2 =
      some (floatRpm (diff16 prevRev (u16le (byteAt data 1) (byteAt data 2)))
        (diff16 prevTime (u16le (byteAt data 3) (byteAt data 4)))) ∧
    rpmSpecFloor (diff16 prevRev (u16le (byteAt data 1) (byteAt data 2)))
        (diff16 prevTime (u16le (byteAt data 3) (byteAt data 4))) - 1 ≤
      floatRpm (diff16 prevRev (u16le (byteAt data 1) (byteAt data 2)))
        (diff16 prevTime (u16le (byteAt data 3) (byteAt data 4))) ∧
    floatRpm (diff16 prevRev (u16le (byteAt data 1) (byteAt data 2)))
        (diff16 prevTime (u16le (byteAt data 3) (byteAt data 4))) ≤
      rpmSpecFloor (diff16 prevRev (u16le (byteAt data 1) (byteAt data 2)))
        (diff16 prevTime (u16le (byteAt data 3) (byteAt data 4))) ∧
    0 ≤ floatRpm (diff16 prevRev (u16le (byteAt data 1) (byteAt data 2)))
        (diff16 prevTime (u16le (byteAt data 3) (byteAt data 4))) := by
  have hrd2 : diff16 prevRev (u16le (byteAt data 1) (byteAt data 2)) ≤ 65535 :=
    diff16_le _ _ (u16le_le _ _ (byteAt_le data 1 hbytes) (byteAt_le data 2 hbytes))
  have htd2 : diff16 prevTime (u16le (byteAt data 3) (byteAt data 4)) ≤ 65535 :=
    diff16_le _ _ (u16le_le _ _ (byteAt_le data 3 hbytes) (byteAt_le data 4 hbytes))
  obtain ⟨b1, b2, b3⟩ := floatRpm_bounds _ _ (by omega) hrd2 (by omega) htd2
  rw [rpmSpecFloor_eq_intDiv _ _ htd]
  exact ⟨notificationHandler_second s data prevRev prevTime hpr hpt hlen hbit htd,
    b1, b2, b3⟩

theorem c5_rpm_double_rounding_witness :
    ((⟨0, some 0, some 0⟩ : SensorState).lastCrankRevolutions = some 0) ∧
    ((⟨0, some 0, some 0⟩ : SensorState).lastCrankEventTime = some 0) ∧
    5 ≤ [2, 1, 0, 10, 0].length ∧
    crankDataPresent (byteAt [2, 1, 0, 10, 0] 0) = true ∧
    (∀ x ∈ [2, 1, 0, 10, 0], x ≤ 255) ∧
    0 < diff16 0 (u16le (byteAt [2, 1, 0, 10, 0] 1) (byteAt [2, 1, 0, 10, 0] 2)) ∧
    0 < diff16 0 (u16le (byteAt [2, 1, 0, 10, 0] 3) (byteAt [2, 1, 0, 10, 0] 4)) ∧
    ((notificationHandler ⟨0, some 0, some 0⟩ [2, 1, 0, 10, 0]).2 =
      some (floatRpm (diff16 0 (u16le (byteAt [2, 1, 0, 10, 0] 1) (byteAt [2, 1, 0, 10, 0] 2)))
        (diff16 0 (u16le (byteAt [2, 1, 0, 10, 0] 3) (byteAt [2, 1, 0, 10, 0] 4)))) ∧
    rpmSpecFloor (diff16 0 (u16le (byteAt [2, 1, 0, 10, 0] 1) (byteAt [2, 1, 0, 10, 0] 2)))
        (diff16 0 (u16le (byteAt [2, 1, 0, 10, 0] 3) (byteAt [2, 1, 0, 10, 0] 4))) - 1 ≤
      floatRpm (diff16 0 (u16le (byteAt [2, 1, 0, 10, 0] 1) (byteAt [2, 1, 0, 10, 0] 2)))
        (diff16 0 (u16le (byteAt [2, 1, 0, 10, 0] 3) (byteAt [2, 1, 0, 10, 0] 4))) ∧
    floatRpm (diff16 0 (u16le (byteAt [2, 1, 0, 10, 0] 1) (byteAt [2, 1, 0, 10, 0] 2)))
        (diff16 0 (u16le (byteAt [2, 1, 0, 10, 0] 3) (byteAt [2, 1, 0, 10, 0] 4))) ≤
      rpmSpecFloor (diff16 0 (u16le (byteAt [2, 1, 0, 10, 0] 1) (byteAt [2, 1, 0, 10, 0] 2)))
        (diff16 0 (u16le (byteAt [2, 1, 0, 10, 0] 3) (byteAt [2, 1, 0, 10, 0] 4))) ∧
    0 ≤ floatRpm (diff16 0 (u16le (byteAt [2, 1, 0, 10, 0] 1) (byteAt [2, 1, 0, 10, 0] 2)))
        (diff16 0 (u16le (byteAt [2, 1, 0, 10, 0] 3) (byteAt [2, 1, 0, 10, 0] 4)))) :=
  ⟨rfl, rfl, by decide, by decide, by decide, by decide, by decide,
   c5_rpm_double_rounding ⟨0, some 0, some 0⟩ [2, 1, 0, 10, 0] 0 0 rfl rfl
     (by decide) (by decide) (by decide) (by decide) (by decide)⟩

/-- C6: after 16-bit rollover correction, rev_diff and time_diff are always
non-negative (and at most 65535) for counters and timestamps in [0, 65535];
decoding counter 65534 then 2 yields rev_diff = diff16 65534 2 = 4, the
first frame having stored 65534 in the decoder state. -/
theorem c6_rollover_nonneg (c1 c2 t1 t2 : ℕ)
    (hc1 : c1 ≤ 65535) (hc2 : c2 ≤ 65535) (ht1 : t1 ≤ 65535) (ht2 : t2 ≤ 65535) :
    (0 ≤ diff16 c1 c2 ∧ diff16 c1 c2 ≤ 65535) ∧
    (0 ≤ diff16 t1 t2 ∧ diff16 t1 t2 ≤ 65535) ∧
    diff16 65534 2 = 4 ∧
    (notificationHandler ⟨0, none, none⟩ [2, 254, 255, 10, 0]).1.lastCrankRevolutions =
      some 65534 :=
  ⟨⟨diff16_nonneg _ _ hc1, diff16_le _ _ hc2⟩,
   ⟨diff16_nonneg _ _ ht1, diff16_le _ _ ht2⟩,
   by decide, by decide⟩

theorem c6_rollover_nonneg_witness :
    (65534 : ℕ) ≤ 65535 ∧ (2 : ℕ) ≤ 65535 ∧ (0 : ℕ) ≤ 65535 ∧ (10 : ℕ) ≤ 65535 ∧
    ((0 ≤ diff16 65534 2 ∧ diff16 65534 2 ≤ 65535) ∧
     (0 ≤ diff16 0 10 ∧ diff16 0 10 ≤ 65535) ∧
     diff16 65534 2 = 4 ∧
     (notificationHandler ⟨0, none, none⟩ [2, 254, 255, 10, 0]).1.lastCrankRevolutions =
       some 65534) :=
  ⟨by decide, by decide, by decide, by decide,
   c6_rollover_nonneg 65534 2 0 10 (by decide) (by decide) (by decide) (by decide)⟩

/-- C7 counterexample: from counter state (5, 100), frame [2, 5, 0, 110, 0]
has rev_diff = diff16 5 5 = 0 and time_diff = 10 > 0, and the decoder emits
the sample rpm = 0 — contradicting the claim that rpm = 0 is never emitted
when rev_diff = 0. -/
theorem c7_zero_rpm_emitted :
    diff16 5 5 = 0 ∧
    (notificationHandler ⟨0, some 5, some 100⟩ [2, 5, 0, 110, 0]).2 = some 0 := by
  refine ⟨by decide, ?_⟩
  rw [notificationHandler_second ⟨0, some 5, some 100⟩ [2, 5, 0, 110, 0] 5 100 rfl rfl
    (by decide) (by decide) (by decide)]
  have e1 : diff16 5 (u16le (byteAt [2, 5, 0, 110, 0] 1) (byteAt [2, 5, 0, 110, 0] 2)) =
      0 := by decide
  have e2 : diff16 100 (u16le (byteAt [2, 5, 0, 110, 0] 3) (byteAt [2, 5, 0, 110, 0] 4)) =
      10 := by decide
  rw [e1, e2, floatRpm_zero]

/-- C7 (amended): every emitted sample is non-negative (no negative values;
NaN cannot arise in this exact model), but when rev_diff = 0 and
time_diff > 0 the decoder emits rpm = 0 instead of suppressing the sample. -/
theorem c7_nonneg_and_zero_emission (s : SensorState) (data : List ℕ)
    (prevRev prevTime : ℕ)
    (hpr : s.lastCrankRevolutions = some prevRev)
    (hpt : s.lastCrankEventTime = some prevTime)
    (hprR : prevRev ≤ 65535)
    (hlen : 5 ≤ data.length)
    (hbit : crankDataPresent (byteAt data 0) = true)
    (htd : 0 < diff16 prevTime (u16le (byteAt data 3) (byteAt data 4))) :
    (∀ rpm : ℤ, (notificationHandler s data).2 = some rpm → 0 ≤ rpm) ∧
    (diff16 prevRev (u16le (byteAt data 1) (byteAt data 2)) = 0 →
      (notificationHandler s data).2 = some 0) := by
  have hemit := notificationHandler_second s data prevRev prevTime hpr hpt hlen hbit htd
  constructor
  · intro rpm hrpm
    rw [hemit] at hrpm
    rw [← Option.some.inj hrpm]
    exact floatRpm_nonneg _ _ (diff16_nonneg _ _ hprR) htd
  · intro h0
    rw [hemit, h0, floatRpm_zero]

theorem c7_nonneg_and_zero_emission_witness :
    ((⟨0, some 5, some 100⟩ : SensorState).lastCrankRevolutions = some 5) ∧
    ((⟨0, some 5, some 100⟩ : SensorState).lastCrankEventTime = some 100) ∧
    (5 : ℕ) ≤ 65535 ∧
    5 ≤ [2, 5, 0, 110, 0].length ∧
    crankDataPresent (byteAt [2, 5, 0, 110, 0] 0) = true ∧
    0 < diff16 100 (u16le (byteAt [2, 5, 0, 110, 0] 3) (byteAt [2, 5, 0, 110, 0] 4)) ∧
    ((∀ rpm : ℤ,
        (notificationHandler ⟨0, some 5, some 100⟩ [2, 5, 0, 110, 0]).2 = some rpm →
          0 ≤ rpm) ∧
     (diff16 5 (u16le (byteAt [2, 5, 0, 110, 0] 1) (byteAt [2, 5, 0, 110, 0] 2)) = 0 →
        (notificationHandler ⟨0, some 5, some 100⟩ [2, 5, 0, 110, 0]).2 = some 0)) :=
  ⟨rfl, rfl, by decide, by decide, by decide, by decide,
   c7_nonneg_and_zero_emission ⟨0, some 5, some 100⟩ [2, 5, 0, 110, 0] 5 100 rfl rfl
     (by decide) (by decide) (by decide) (by decide)⟩

/-- C8 counterexample: at startup with the firewall rule currently disabled,
initialization succeeds, reads youtube_blocked = some false from the rule
status and performs no gate write — so the startup DISCONNECTED → connected
transition does not force blocked = true. -/
theorem c8_startup_not_forced :
    initMonitor true true (some false) true true = some ⟨[], 0, some false, 0⟩ ∧
    (some false : Option Bool) ≠ some true :=
  ⟨rfl, by decide⟩

/-- C8 (amended): initialization never forces a block — it sets blocked to
the rule's current status; in the monitor loop the forced block happens in
the disconnect branch before the reconnect attempt, and when that gate call
succeeds, a disconnect-and-reconnect iteration always ends blocked (window
capacity positive). -/
theorem c8_block_before_reconnect (v1 v2 b s1 n1 : Bool) (st : MonitorState)
    (hinit : initMonitor v1 v2 (some b) s1 n1 = some st)
    (cfg : Config) (s : MonitorState) (d : Bool) (nowD nowU : ℚ)
    (hw : 0 < cfg.window) :
    st.youtubeBlocked = some b ∧
    (monitorStep cfg s false true true d nowD nowU).youtubeBlocked = some true := by
  constructor
  · unfold initMonitor at hinit
    split_ifs at hinit with i1 i2 i3 i4 i5
    rw [← Option.some.inj hinit]
  · have hs1b : (handleDisconnect s nowD true).youtubeBlocked = some true := by
      unfold handleDisconnect
      by_cases hb : s.youtubeBlocked = some true
      · rw [if_neg (by simp [hb])]
        exact hb
      · rw [if_pos hb, if_pos rfl]
    have hhist : (handleDisconnect s nowD true).cadenceHistory = [] := rfl
    have hshould :
        shouldBlockYoutube cfg (handleDisconnect s nowD true).cadenceHistory = true := by
      rw [hhist]
      unfold shouldBlockYoutube
      rw [if_pos (by simpa using hw)]
    unfold monitorStep
    rw [if_neg (by simp), if_pos rfl]
    unfold updateYoutubeBlock
    rw [if_pos (by rw [hs1b, hshould])]
    exact hs1b

theorem c8_block_before_reconnect_witness :
    initMonitor true true (some true) true true = some ⟨[], 0, some true, 0⟩ ∧
    0 < (⟨60, 3, 5⟩ : Config).window ∧
    ((⟨[], 0, some true, 0⟩ : MonitorState).youtubeBlocked = some true ∧
     (monitorStep ⟨60, 3, 5⟩ ⟨[70], 70, some false, 5⟩ false true true false 1 2).youtubeBlocked =
       some true) :=
  ⟨rfl, by decide,
   c8_block_before_reconnect true true true true true ⟨[], 0, some true, 0⟩ rfl
     ⟨60, 3, 5⟩ ⟨[70], 70, some false, 5⟩ false 1 2 (by decide)⟩

/-- C9: a frame whose flags byte has the crank-data bit (0x02) set but whose
total length is under 5 bytes is dropped: no sample is returned and the
counter state is left completely unchanged. -/
theorem c9_malformed_frame_dropped (s : SensorState) (data : List ℕ)
    (hbit : crankDataPresent (byteAt data 0) = true)
    (hlen : data.length < 5) :
    notificationHandler s data = (s, none) := by
  have h1 : ¬ data.length < 1 := by
    intro hl
    have hnil : data = [] := List.eq_nil_of_length_eq_zero (by omega)
    rw [hnil] at hbit
    simp [byteAt, crankDataPresent] at hbit
  unfold notificationHandler
  rw [if_neg h1, if_neg (by simp [hbit]), if_pos hlen]

theorem c9_malformed_frame_dropped_witness :
    crankDataPresent (byteAt [2, 7, 9] 0) = true ∧
    [2, 7, 9].length < 5 ∧
    notificationHandler ⟨0, some 1, some 2⟩ [2, 7, 9] = (⟨0, some 1, some 2⟩, none) :=
  ⟨by decide, by decide,
   c9_malformed_frame_dropped ⟨0, some 1, some 2⟩ [2, 7, 9] (by decide) (by decide)⟩

/-- C10: when the forced block on disconnect succeeds (gate not blocked
before, enable_rule returns true), last_state_change is set to the
disconnect time, so any state change attempted strictly before that time
plus the grace period is rejected — whatever the window holds by then. -/
theorem c10_disconnect_restarts_grace (cfg : Config) (s : MonitorState) (now : ℚ)
    (hnb : s.youtubeBlocked ≠ some true)
    (t : ℚ) (hist2 : List ℚ) (cur2 : ℚ) (e2 d2 : Bool)
    (ht : t < now + cfg.gracePeriod) :
    (handleDisconnect s now true).lastStateChange = now ∧
    (updateYoutubeBlock cfg
        { handleDisconnect s now true with
          cadenceHistory := hist2
          currentCadence := cur2 } t e2 d2).2 = false := by
  have hl : (handleDisconnect s now true).lastStateChange = now := by
    unfold handleDisconnect
    rw [if_pos hnb, if_pos rfl]
  refine ⟨hl, ?_⟩
  apply updateYoutubeBlock_noChange_of_graceFail
  have hl2 : ({ handleDisconnect s now true with
      cadenceHistory := hist2
      currentCadence := cur2 } : MonitorState).lastStateChange = now := hl
  rw [hl2]
  unfold canChangeState
  rw [decide_eq_false_iff_not]
  intro hge
  linarith

theorem c10_disconnect_restarts_grace_witness :
    ((⟨[50, 50], 50, some false, 90⟩ : MonitorState).youtubeBlocked ≠ some true) ∧
    (102 : ℚ) < 100 + (⟨60, 3, 5⟩ : Config).gracePeriod ∧
    ((handleDisconnect ⟨[50, 50], 50, some false, 90⟩ 100 true).lastStateChange = 100 ∧
     (updateYoutubeBlock ⟨60, 3, 5⟩
        { handleDisconnect ⟨[50, 50], 50, some false, 90⟩ 100 true with
          cadenceHistory := [70, 70, 70, 70, 70]
          currentCadence := 70 } 102 true true).2 = false) := by
  have h2 : (102 : ℚ) < 100 + (⟨60, 3, 5⟩ : Config).gracePeriod := by norm_num
  exact ⟨by decide, h2,
    c10_disconnect_restarts_grace ⟨60, 3, 5⟩ ⟨[50, 50], 50, some false, 90⟩ 100
      (by decide) 102 [70, 70, 70, 70, 70] 70 true true h2⟩
